import Mathlib

/-!
Verification development for the `cctk` challenge-toolkit sources.

Each definition below is a shallow embedding of a function or class from the
repository (file and line references are given in the doc comments).  Python
integers are embedded as `Nat`/`Int` (Python ints are unbounded; wherever the
original algorithm relies on machine-width truncation this is written as an
explicit `% 2 ^ w`).  Python exceptions are embedded as `Except PyErr`.
-/

namespace Cctk

/-- Exceptions raised by the embedded Python code.  `validationError` covers
`cctk.validation.ValidationError`; `fatalValidationError` covers its subclass
`FatalValidationError` (so an `except ValidationError` handler catches both). -/
inductive PyErr where
  | validationError : PyErr
  | fatalValidationError : PyErr
  | keyError : String → PyErr
  | attributeError : String → PyErr
  | assertionError : String → PyErr
  | typeError : String → PyErr
  | fileNotFoundError : String → PyErr
deriving DecidableEq, Repr

instance {ε α : Type} [DecidableEq ε] [DecidableEq α] : DecidableEq (Except ε α) := fun a b =>
  match a, b with
  | .ok x, .ok y => decidable_of_iff (x = y) (by simp)
  | .error x, .error y => decidable_of_iff (x = y) (by simp)
  | .ok _, .error _ => isFalse (by simp)
  | .error _, .ok _ => isFalse (by simp)

/-- Reading an attribute or calling a method on a Python value of type
`X | None`: when the value is `None`, Python raises `AttributeError`. -/
def optAttr {α β : Type} (name : String) (f : α → β) : Option α → Except PyErr β
  | some a => .ok (f a)
  | none => .error (.attributeError name)

/-! ## `cctk.util.challenge_id_hash` (src/cctk/util/__init__.py, lines 6-37) -/

/-- The 64-bit FNV prime used by `_fnv_1a_64`. -/
def fnv_prime : Nat := 1099511628211

/-- The 64-bit FNV offset basis used by `_fnv_1a_64`. -/
def fnv_offset_basis : Nat := 14695981039346656037

/-- Embedding of `_fnv_1a_64(text)` (util/__init__.py lines 6-18).  The Python
loop is `h ^= byte; h *= 1099511628211` over unbounded Python integers - the
source never masks the accumulator to 64 bits, so neither does this embedding. -/
def fnv_1a_64 (text : List Nat) : Nat :=
  text.foldl (fun h byte => (h ^^^ byte) * fnv_prime) fnv_offset_basis

/-- Embedding of `challenge_id_hash(challenge_id)` (util/__init__.py lines
20-37), over the UTF-8 bytes of the id (Python `str.encode()` defaults to
UTF-8).  The xor-fold and the final offset are written exactly as in the
source: `hash28 = ((fnv64hash >> 28) ^ fnv64hash) & (2**28 - 1)` and
`return hash28 + 2**28`. -/
def challenge_id_hash (idBytes : List Nat) : Nat :=
  let fnv64hash := fnv_1a_64 idBytes
  let hash28 := ((fnv64hash >>> 28) ^^^ fnv64hash) &&& (2 ^ 28 - 1)
  hash28 + 2 ^ 28

/-- UTF-8 encoding of a string, as a list of byte values. -/
def utf8Bytes (s : String) : List Nat := s.toUTF8.toList.map UInt8.toNat

/-- String-level wrapper of `challenge_id_hash` (the Python function takes the
id string and encodes it itself). -/
def challenge_id_hash_str (s : String) : Nat := challenge_id_hash (utf8Bytes s)

/-- Modelled from the spec: the genuine 64-bit FNV-1a hash, in which every
multiplication is reduced modulo `2 ^ 64` (this is the "64-bit FNV-1a hash"
the spec refers to; the reference algorithm works in 64-bit arithmetic). -/
def fnv_1a_64_spec (text : List Nat) : Nat :=
  text.foldl (fun h byte => ((h ^^^ byte) * fnv_prime) % 2 ^ 64) fnv_offset_basis

/-- Modelled from the spec: xor-folding a 64-bit hash down to 28 bits. -/
def xor_fold_28 (h : Nat) : Nat :=
  ((h >>> 28) ^^^ h) &&& (2 ^ 28 - 1)

/-! ## CTFd API models (src/cctk/ctfd/models.py) -/

namespace Ctfd

/-- Challenge visibility (models.py lines 9-12). -/
inductive ChallengeState where
  | hidden
  | visible
deriving DecidableEq, Repr

/-- Challenge instance type (models.py lines 14-17). -/
inductive ChallengeType where
  | standard
  | dynamic
deriving DecidableEq, Repr

/-- Model for base challenges (models.py lines 20-50).  Note the scalar
scoring fields: the model carries dynamic-scoring parameters `initial`,
`minimum` and `decay`; it declares no `value` field. -/
structure Challenge where
  id : Int
  name : String
  category : String
  initial : Int
  minimum : Int
  decay : Int
  description : String := ""
  state : ChallengeState := .hidden
  max_attempts : Int := 0
  type : ChallengeType := .dynamic
  connection_info : Option String := none
  next_id : Option Int := none
deriving DecidableEq, Repr

/-- An individual challenge tag (models.py lines 62-66). -/
structure Tag where
  value : String
  id : Option Int := none
deriving DecidableEq, Repr

/-- Model for challenge tags (models.py lines 53-86). -/
structure ChallengeTags where
  id : Int
  tags : List Tag
deriving DecidableEq, Repr

def ChallengeTags.as_str_list (t : ChallengeTags) : List String :=
  t.tags.map (·.value)

/-- Embedding of `ChallengeTags.matches_values_of` (models.py lines 76-86): length equality
plus positionwise equality of tag values. -/
def ChallengeTags.matches_values_of (a other : ChallengeTags) : Bool :=
  if a.tags.length ≠ other.tags.length then false
  else (a.tags.zip other.tags).all fun p => p.1.value = p.2.value

/-- An individual challenge hint (models.py lines 98-102). -/
structure Hint where
  content : String
  id : Option Int := none
deriving DecidableEq, Repr

/-- Model for challenge hints (models.py lines 89-122). -/
structure ChallengeHints where
  id : Int
  hints : List Hint
deriving DecidableEq, Repr

def ChallengeHints.as_str_list (h : ChallengeHints) : List String :=
  h.hints.map (·.content)

/-- Embedding of `ChallengeHints.matches_values_of` (models.py lines 112-122). -/
def ChallengeHints.matches_values_of (a other : ChallengeHints) : Bool :=
  if a.hints.length ≠ other.hints.length then false
  else (a.hints.zip other.hints).all fun p => p.1.content = p.2.content

/-- An individual challenge flag (models.py lines 134-139). -/
structure Flag where
  content : String
  id : Option Int := none
  type : Option String := some "static"
deriving DecidableEq, Repr

/-- Model for challenge flags (models.py lines 125-161). -/
structure ChallengeFlags where
  id : Int
  flags : List Flag
deriving DecidableEq, Repr

def ChallengeFlags.as_str_list (f : ChallengeFlags) : List String :=
  f.flags.map (·.content)

/-- Embedding of `ChallengeFlags.matches_values_of` (models.py lines 149-161): compares
flag types as well as contents, positionwise. -/
def ChallengeFlags.matches_values_of (a other : ChallengeFlags) : Bool :=
  if a.flags.length ≠ other.flags.length then false
  else (a.flags.zip other.flags).all fun p => p.1.type = p.2.type ∧ p.1.content = p.2.content

/-- An individual challenge file (models.py lines 173-179).  `data` is the
in-memory payload (`io.BytesIO`), embedded as an optional byte list. -/
structure File where
  filename : String
  content_label : String
  data : Option (List Nat) := none
  id : Option Int := none
deriving DecidableEq, Repr

/-- Model for challenge files (models.py lines 164-188). -/
structure ChallengeFiles where
  id : Int
  files : List File
deriving DecidableEq, Repr

/-- Embedding of `ChallengeFiles.as_str_set` (models.py lines 186-188) returns
`set(self.files)`; `File` is declared with `eq=False`, so the set hashes file
objects by identity and therefore keeps one member per object - it is simply
the collection of file entries. -/
def ChallengeFiles.as_str_set (f : ChallengeFiles) : List File :=
  f.files

/-- Python attribute lookup `challenge.value` on the attrs model `Challenge`
(models.py lines 20-50): the class declares fields id, name, category,
initial, minimum, decay, description, state, max_attempts, type,
connection_info, next_id and no `value` field (attrs `@define` classes are
slotted and nothing ever assigns a `value` attribute), so the lookup raises
`AttributeError`. -/
def Challenge.value? (_ : Challenge) : Except PyErr Int :=
  .error (.attributeError "value")

end Ctfd

/-! ## CTFd API client with its internal cache (src/cctk/ctfd/api.py) -/

namespace Ctfd

/-- The typed internal cache `CTFdAPI._Cache` (api.py lines 17-24): one dict
per entity kind, keyed by numeric challenge id.  Python dicts are embedded as
functions into `Option`. -/
structure Cache where
  challenges : Int → Option Challenge := fun _ => none
  tags : Int → Option ChallengeTags := fun _ => none
  hints : Int → Option ChallengeHints := fun _ => none
  flags : Int → Option ChallengeFlags := fun _ => none
  files : Int → Option ChallengeFiles := fun _ => none

/-- Pointwise update of a dict: `m[k] = v` (for `v = some _`) or
`m.pop(k, None)` (for `v = none`). -/
def upd {α : Type} (m : Int → Option α) (k : Int) (v : Option α) : Int → Option α :=
  fun i => if i = k then v else m i

/-- Entity kinds, used to label remote read requests in the trace log. -/
inductive ResKind where
  | challenges
  | tags
  | hints
  | flags
  | files
deriving DecidableEq, Repr

/-- The remote CTFd instance as observed through its HTTP API: the base
challenge row per id, and the sub-resource rows per challenge id.  The HTTP
transport itself is an external collaborator; this structure models the
server state that the api.py requests read and write. -/
structure Remote where
  challenges : Int → Option Challenge
  tags : Int → List Tag
  hints : Int → List Hint
  flags : Int → List Flag
  files : Int → List File

/-- One `CTFdAPI` object together with the remote instance it talks to.
`remote_reads` logs every remote GET request performed (newest last), so that
"performs exactly one remote read" claims can be stated; `next_row_id` is the
server-side source of fresh row ids for created sub-resources. -/
structure ApiState where
  remote : Remote
  cache : Cache := {}
  remote_reads : List (ResKind × Int) := []
  next_row_id : Int := 1000

namespace CTFdAPI

/-- Embedding of `CTFdAPI.get_challenge` (api.py lines 58-94).  Uses the cache if
available; otherwise performs the GET request.  A 404 returns `None`
*without* storing anything in the cache (lines 77-79 return before the
cache write at line 93); a successful fetch is cached and returned. -/
def get_challenge (s : ApiState) (challenge_id : Int) : Option Challenge × ApiState :=
  match s.cache.challenges challenge_id with
  | some c => (some c, s)
  | none =>
    let s := { s with remote_reads := s.remote_reads ++ [(ResKind.challenges, challenge_id)] }
    match s.remote.challenges challenge_id with
    | none => (none, s)
    | some c =>
      (some c,
        { s with cache := { s.cache with challenges := upd s.cache.challenges challenge_id (some c) } })

/-- Embedding of `CTFdAPI.create_challenge` (api.py lines 96-113): drops the cache entry
for the challenge id, then POSTs the new challenge. -/
def create_challenge (s : ApiState) (challenge : Challenge) : ApiState :=
  let s := { s with cache := { s.cache with challenges := upd s.cache.challenges challenge.id none } }
  { s with remote := { s.remote with
      challenges := fun i => if i = challenge.id then some challenge else s.remote.challenges i } }

/-- Embedding of `CTFdAPI.update_challenge` (api.py lines 130-168): fetches the
pre-existing challenge, copies its visibility `state` onto the target, skips
the write when nothing would change, otherwise drops the cache entry and
PATCHes the challenge. -/
def update_challenge (s : ApiState) (challenge : Challenge) (dry_run : Bool := false) :
    Bool × ApiState :=
  let (initial_chal, s) := get_challenge s challenge.id
  let challenge := match initial_chal with
    | some ic => { challenge with state := ic.state }
    | none => challenge
  if some challenge = initial_chal then (false, s)
  else if dry_run then (true, s)
  else
    let s := { s with cache := { s.cache with challenges := upd s.cache.challenges challenge.id none } }
    (true, { s with remote := { s.remote with
        challenges := fun i => if i = challenge.id then some challenge else s.remote.challenges i } })

/-- Embedding of `CTFdAPI.get_tags` (api.py lines 171-200): cache hit or one GET request,
whose result is structured, cached and returned. -/
def get_tags (s : ApiState) (challenge_id : Int) : ChallengeTags × ApiState :=
  match s.cache.tags challenge_id with
  | some v => (v, s)
  | none =>
    let s := { s with remote_reads := s.remote_reads ++ [(ResKind.tags, challenge_id)] }
    let structured : ChallengeTags := { id := challenge_id, tags := s.remote.tags challenge_id }
    (structured,
      { s with cache := { s.cache with tags := upd s.cache.tags challenge_id (some structured) } })

/-- Embedding of `CTFdAPI.update_tags` (api.py lines 210-244): fetches pre-existing tags,
returns early when the values already match, otherwise drops the *tags* cache
entry, deletes every pre-existing tag row and creates the target tags
serially in order (each created row receives a fresh server-side id). -/
def update_tags (s : ApiState) (target_tags : ChallengeTags) (dry_run : Bool := false) :
    Bool × ApiState :=
  let (initial_tags, s) := get_tags s target_tags.id
  if target_tags.matches_values_of initial_tags then (false, s)
  else if dry_run then (true, s)
  else
    let s := { s with cache := { s.cache with tags := upd s.cache.tags target_tags.id none } }
    let deleted_ids := initial_tags.tags.map (·.id)
    let remaining := (s.remote.tags target_tags.id).filter (fun row => row.id ∉ deleted_ids)
    let created := target_tags.tags.enum.map fun p =>
      ({ value := p.2.value, id := some (s.next_row_id + (p.1 : Int)) } : Tag)
    (true, { s with
      remote := { s.remote with
        tags := fun i => if i = target_tags.id then remaining ++ created else s.remote.tags i },
      next_row_id := s.next_row_id + target_tags.tags.length })

/-- Embedding of `CTFdAPI.get_hints` (api.py lines 247-276): cache hit or one GET request,
whose result is structured, cached and returned. -/
def get_hints (s : ApiState) (challenge_id : Int) : ChallengeHints × ApiState :=
  match s.cache.hints challenge_id with
  | some v => (v, s)
  | none =>
    let s := { s with remote_reads := s.remote_reads ++ [(ResKind.hints, challenge_id)] }
    let structured : ChallengeHints := { id := challenge_id, hints := s.remote.hints challenge_id }
    (structured,
      { s with cache := { s.cache with hints := upd s.cache.hints challenge_id (some structured) } })

/-- Embedding of `CTFdAPI.update_hints` (api.py lines 286-320): fetches pre-existing
hints, returns early when the values already match, otherwise drops the
*hints* cache entry, deletes every pre-existing hint row and creates the
target hints serially in order. -/
def update_hints (s : ApiState) (target_hints : ChallengeHints) (dry_run : Bool := false) :
    Bool × ApiState :=
  let (initial_hints, s) := get_hints s target_hints.id
  if target_hints.matches_values_of initial_hints then (false, s)
  else if dry_run then (true, s)
  else
    let s := { s with cache := { s.cache with hints := upd s.cache.hints target_hints.id none } }
    let deleted_ids := initial_hints.hints.map (·.id)
    let remaining := (s.remote.hints target_hints.id).filter (fun row => row.id ∉ deleted_ids)
    let created := target_hints.hints.enum.map fun p =>
      ({ content := p.2.content, id := some (s.next_row_id + (p.1 : Int)) } : Hint)
    (true, { s with
      remote := { s.remote with
        hints := fun i => if i = target_hints.id then remaining ++ created else s.remote.hints i },
      next_row_id := s.next_row_id + target_hints.hints.length })

/-- Embedding of `CTFdAPI.get_flags` (api.py lines 323-352): cache hit or one GET request,
whose result is structured, cached and returned. -/
def get_flags (s : ApiState) (challenge_id : Int) : ChallengeFlags × ApiState :=
  match s.cache.flags challenge_id with
  | some v => (v, s)
  | none =>
    let s := { s with remote_reads := s.remote_reads ++ [(ResKind.flags, challenge_id)] }
    let structured : ChallengeFlags := { id := challenge_id, flags := s.remote.flags challenge_id }
    (structured,
      { s with cache := { s.cache with flags := upd s.cache.flags challenge_id (some structured) } })

/-- Embedding of `CTFdAPI.update_flags` (api.py lines 362-396): fetches pre-existing
flags, returns early when the values already match, otherwise drops the
*flags* cache entry, deletes every pre-existing flag row and creates the
target flags serially in order (created rows carry the server default type
"static"). -/
def update_flags (s : ApiState) (target_flags : ChallengeFlags) (dry_run : Bool := false) :
    Bool × ApiState :=
  let (initial_flags, s) := get_flags s target_flags.id
  if target_flags.matches_values_of initial_flags then (false, s)
  else if dry_run then (true, s)
  else
    let s := { s with cache := { s.cache with flags := upd s.cache.flags target_flags.id none } }
    let deleted_ids := initial_flags.flags.map (·.id)
    let remaining := (s.remote.flags target_flags.id).filter (fun row => row.id ∉ deleted_ids)
    let created := target_flags.flags.enum.map fun p =>
      ({ content := p.2.content, id := some (s.next_row_id + (p.1 : Int)) } : Flag)
    (true, { s with
      remote := { s.remote with
        flags := fun i => if i = target_flags.id then remaining ++ created else s.remote.flags i },
      next_row_id := s.next_row_id + target_flags.flags.length })

/-- Embedding of `CTFdAPI.get_files` (api.py lines 399-431): cache hit or one GET request.
(The Python code additionally derives each filename from the row's `location`
field; the modelled remote rows carry their filenames directly.) -/
def get_files (s : ApiState) (challenge_id : Int) : ChallengeFiles × ApiState :=
  match s.cache.files challenge_id with
  | some v => (v, s)
  | none =>
    let s := { s with remote_reads := s.remote_reads ++ [(ResKind.files, challenge_id)] }
    let structured : ChallengeFiles := { id := challenge_id, files := s.remote.files challenge_id }
    (structured,
      { s with cache := { s.cache with files := upd s.cache.files challenge_id (some structured) } })

/-- The local helper `_file_attributes` of `update_files` (api.py lines
460-461): the set of `(filename, content_label)` pairs. -/
def file_attributes (files : ChallengeFiles) : Finset (String × String) :=
  (files.files.map fun f => (f.filename, f.content_label)).toFinset

/-- Embedding of `CTFdAPI.update_files` (api.py lines 449-503): fetches pre-existing
files, returns early when the `(filename, content_label)` sets already match,
otherwise drops a cache entry and reconciles the remote rows - deleting rows
whose attributes are in (initial - target) and uploading files whose
attributes are in (target - initial).

Line 475 of the source is `self._cache.flags.pop(target_files.id, None)`:
the files update drops the **flags** cache entry, not the files entry, and
this embedding reproduces that. -/
def update_files (s : ApiState) (target_files : ChallengeFiles) (dry_run : Bool := false) :
    Except PyErr (Bool × ApiState) := do
  let (initial_files, s) := get_files s target_files.id
  if file_attributes initial_files = file_attributes target_files then return (false, s)
  else if dry_run then return (true, s)
  else
  let s := { s with cache := { s.cache with flags := upd s.cache.flags target_files.id none } }
  -- remove any files that shouldn't exist (api.py lines 478-488); the Python
  -- loop finds the first initial row with the given attributes and asserts
  -- that it carries a row id
  let to_delete := (initial_files.files.map fun f => (f.filename, f.content_label)).dedup.filter
    (fun attrs => attrs ∉ target_files.files.map fun f => (f.filename, f.content_label))
  let s ← to_delete.foldlM (fun (s : ApiState) attrs => do
    match initial_files.files.find? (fun f => (f.filename, f.content_label) = attrs) with
    | none => throw (.assertionError "file_id is not None")
    | some f =>
      match f.id with
      | none => throw (.assertionError "file_id is not None")
      | some fid =>
        pure { s with remote := { s.remote with
          files := fun i =>
            if i = target_files.id then
              (s.remote.files target_files.id).filter (fun row => row.id ≠ some fid)
            else s.remote.files i } }) s
  -- upload missing files (api.py lines 491-501); the Python loop scans all
  -- target rows without breaking, keeping the *last* match, and asserts the
  -- in-memory payload is present
  let to_upload := (target_files.files.map fun f => (f.filename, f.content_label)).dedup.filter
    (fun attrs => attrs ∉ initial_files.files.map fun f => (f.filename, f.content_label))
  let s ← to_upload.foldlM (fun (s : ApiState) attrs => do
    match (target_files.files.filter (fun f => (f.filename, f.content_label) = attrs)).getLast? with
    | none => throw (.assertionError "file is not None")
    | some f =>
      match f.data with
      | none => throw (.assertionError "file.data is not None")
      | some _ =>
        pure { s with
          remote := { s.remote with
            files := fun i =>
              if i = target_files.id then
                s.remote.files target_files.id ++
                  [{ filename := f.filename, content_label := f.content_label,
                     id := some s.next_row_id }]
              else s.remote.files i },
          next_row_id := s.next_row_id + 1 }) s
  return (true, s)

end CTFdAPI

/-- A remote instance with no challenges and no sub-resource rows. -/
def empty_remote : Remote :=
  { challenges := fun _ => none, tags := fun _ => [], hints := fun _ => [],
    flags := fun _ => [], files := fun _ => [] }

/-- Two successive `get_challenge` calls for the same id against a freshly
constructed `CTFdAPI` object (empty cache, no requests issued yet): the two
results and the final state. -/
def two_gets (r : Remote) (cid : Int) : Option Challenge × Option Challenge × ApiState :=
  let p1 := CTFdAPI.get_challenge { remote := r } cid
  let p2 := CTFdAPI.get_challenge p1.2 cid
  (p1.1, p2.1, p2.2)

/-- The pre-existing remote file row for the C2 scenario. -/
def c2_initial_file : File :=
  { filename := "old.txt", content_label := "hash-old", id := some 1 }

/-- The pre-existing remote flag row for the C2 scenario. -/
def c2_initial_flag : Flag :=
  { content := "F", id := some 7 }

/-- Remote instance for the C2 scenario: challenge 5 has one file row and one
flag row. -/
def c2_remote : Remote :=
  { empty_remote with
    files := fun i => if i = 5 then [c2_initial_file] else [],
    flags := fun i => if i = 5 then [c2_initial_flag] else [] }

/-- Target file set for the C2 scenario: replace `old.txt` by `new.txt`. -/
def c2_target : ChallengeFiles :=
  { id := 5, files := [{ filename := "new.txt", content_label := "hash-new", data := some [1, 2, 3] }] }

/-- API state for the C2 scenario after discovery has fetched (and cached)
both the files and the flags of challenge 5. -/
def c2_warm : ApiState :=
  (CTFdAPI.get_flags (CTFdAPI.get_files { remote := c2_remote } 5).2 5).2

/-- The C2 write under scrutiny: `update_files` replacing challenge 5's
files. -/
def c2_run : Except PyErr (Bool × ApiState) := CTFdAPI.update_files c2_warm c2_target

end Ctfd

/-! ## Local challenge sources (src/cctk/sources/challenge.py,
src/cctk/schemas/challenge.py) -/

namespace Sources

/-- Embedding of `ChallengeDifficulty` (schemas/challenge.py lines 10-32). -/
inductive ChallengeDifficulty where
  | undefined
  | easy
  | medium
  | hard
deriving DecidableEq, Repr

/-- Embedding of `ChallengeDifficulty.as_tag` (schemas/challenge.py lines 17-20): returns
`self.value.title()`, the title-cased enum value. -/
def ChallengeDifficulty.as_tag : ChallengeDifficulty → String
  | .undefined => "Undefined"
  | .easy => "Easy"
  | .medium => "Medium"
  | .hard => "Hard"

/-- Embedding of `StaticConfig` (sources/challenge.py lines 24-34). -/
structure StaticConfig where
  make_archive : Bool := true
  include_patterns : List String := []
  exclude_patterns : List String := []
  rm_prefixes : List String := []
deriving DecidableEq, Repr

/-- Embedding of `ContainerConfig` (sources/challenge.py lines 37-43). -/
structure ContainerConfig where
  id : String
  build : String
  ports : List (String × Int)
deriving DecidableEq, Repr

/-- Embedding of `ChallengeConfig` (sources/challenge.py lines 46-58).  Its fields are id,
name, category, difficulty, description, tags, flags, hints, static, dynamic;
it declares neither a `points` field nor a singular `flag` field (`flags` is a
list). -/
structure ChallengeConfig where
  id : String
  name : String
  category : String
  difficulty : ChallengeDifficulty
  description : Option String
  tags : List String
  flags : List String
  hints : List String
  static : StaticConfig := {}
  dynamic : Option (List (String × ContainerConfig)) := none
deriving DecidableEq, Repr

/-- Python attribute lookup `config.points`: `ChallengeConfig` (a slotted,
frozen attrs class) has no `points` field, so the lookup raises
`AttributeError`. -/
def ChallengeConfig.points? (_ : ChallengeConfig) : Except PyErr Int :=
  .error (.attributeError "points")

/-- Python attribute lookup `config.flag`: `ChallengeConfig` has a `flags`
list but no singular `flag` field, so the lookup raises `AttributeError`. -/
def ChallengeConfig.flag? (_ : ChallengeConfig) : Except PyErr String :=
  .error (.attributeError "flag")

/-- The slice of `cctk.sources.challenge.Challenge` that the diff engine
reads: its validated config and the `(filename, content_hash)` pairs of
`load_static_files()` (the payload bytes are not inspected by the diff). -/
structure LocalChallenge where
  config : ChallengeConfig
  static_files : List (String × String)
deriving DecidableEq, Repr

/-- Embedding of `Challenge.get_tag_list` (sources/challenge.py lines 359-362):
`[self.config.difficulty.as_tag(), *self.config.tags]`. -/
def LocalChallenge.get_tag_list (c : LocalChallenge) : List String :=
  c.config.difficulty.as_tag :: c.config.tags

/-- The `[meta]` mapping produced by `ChallengeConfigSchema().load`
(schemas/challenge.py lines 35-43): fields id, name (optional), category,
difficulty, description (optional) and tags (defaulted to `[]`).  The schema
declares no `flag` or `flags` field under `[meta]`, and marshmallow rejects
unknown keys, so a schema-validated meta mapping never contains those keys
and optional fields without a load default are simply absent. -/
structure CleanMeta where
  id : String
  name : Option String
  category : String
  difficulty : ChallengeDifficulty
  description : Option String
  tags : List String
deriving DecidableEq, Repr

/-- The possible outcomes of the two loading stages that precede
`ChallengeConfig.from_file`'s own logic: TOML parsing (`tomllib.load`) and
schema validation (`ChallengeConfigSchema().load`), plus the cleaned data on
success. -/
inductive LoadInput where
  | tomlError
  | schemaError
  | clean (meta : CleanMeta) (hints : List String) (static : StaticConfig)
      (dynamic : Option (List (String × ContainerConfig)))
deriving DecidableEq, Repr

/-- Embedding of `ChallengeConfig.from_file` (sources/challenge.py lines 61-138).  A TOML
parse failure or a schema failure is reported to the pen as an ERROR issue
and then `raise ValidationError` (lines 77-79 and 84-87).  On cleanly loaded
data the function assembles `final_data` (lines 93-123; a missing name falls
back to the id with a warning, a missing description becomes `None` with a
warning) and then reaches the flag handling at lines 125-135:
`"flag" in clean_meta` is `False` (the meta schema has no such field), so both
the `if` and the first `elif` fail, and the second `elif` evaluates
`len(clean_meta["flags"])` - but `"flags"` is not a meta schema field either,
so this raises `KeyError("flags")` and the constructor call at line 138 (and
the flagless-config warning path at lines 133-135) is never reached. -/
def ChallengeConfig.from_file : LoadInput → Except PyErr ChallengeConfig
  | .tomlError => .error .validationError
  | .schemaError => .error .validationError
  | .clean meta _hints _static _dynamic =>
    let _name := meta.name.getD meta.id
    let _description := meta.description
    .error (.keyError "flags")

/-- The challenge-loading loop of `DeploySource.__init__` (shared.py lines
104-116): each challenge id is loaded in turn; `except ValidationError`
(which also catches the `FatalValidationError` subclass) records the id in
`self._failed_challenges` and continues with the next id; any other exception
propagates out of `__init__` and aborts the whole batch.  The loading of one
challenge is embedded by its `from_file` stage (the directory sanity checks
and the post-load `_validate_config` checks raise `ValidationError`
subclasses, which the same handler would contain).  Returns the map of loaded
configs and the list of failed ids. -/
def deploy_source_load (cfgs : List (String × LoadInput)) :
    Except PyErr (List (String × ChallengeConfig) × List String) :=
  cfgs.foldlM
    (fun acc c =>
      match ChallengeConfig.from_file c.2 with
      | .ok cfg => .ok (acc.1 ++ [(c.1, cfg)], acc.2)
      | .error .validationError => .ok (acc.1, acc.2 ++ [c.1])
      | .error .fatalValidationError => .ok (acc.1, acc.2 ++ [c.1])
      | .error e => .error e)
    ([], [])

/-- Schema-valid meta section of a challenge config (which, per the schema,
carries no flag information - flags live under `[scoring]`, which `from_file`
never reads). -/
def c5_meta : CleanMeta :=
  { id := "chal-a", name := some "Chal A", category := "web", difficulty := .easy,
    description := some "d", tags := [] }

/-! ### Artifact packaging (`Challenge.load_static_files`,
sources/challenge.py lines 364-441) -/

/-- Per-file filesystem metadata, as `tarfile` captures it into a `TarInfo`
when a file is added to an archive: permission bits (`mode`), ownership
(uid/gid/uname/gname), modification time, extended pax headers. -/
structure SrcMeta where
  mode : Nat
  uid : Nat := 0
  gid : Nat := 0
  uname : String := ""
  gname : String := ""
  mtime : Nat := 0
  pax_headers : List (String × String) := []
deriving DecidableEq, Repr

/-- One tar archive entry as emitted by `tarfile` after the
`filter_tarinfo` filter has been applied: the header fields together with the
file payload.  `tarfile` writes each of these fields into its own fixed
region of the 512-byte entry header, so two archives produced by the same
`tarfile` version are byte-identical iff their entry sequences are equal;
this list of entries is the embedding of the archive byte stream. -/
structure TarEntry where
  name : String
  mode : Nat
  uid : Nat
  gid : Nat
  uname : String
  gname : String
  mtime : Nat
  pax_headers : List (String × String)
  payload : List Nat
deriving DecidableEq, Repr

/-- Python `str.removeprefix`: drops the prefix when present, otherwise
returns the string unchanged (expressed over the character list so that it
evaluates inside the kernel). -/
def removePrefixStr (s p : String) : String :=
  if p.data.isPrefixOf s.data then String.mk (s.data.drop p.data.length) else s

/-- The name-stripping loop of `filter_tarinfo` (sources/challenge.py lines
406-412): try every configured prefix plus the default `"static"`, each
candidate being `info.name.removeprefix(prefix).removeprefix("/")`, and keep
the shortest resulting name. -/
def strip_name (rm_prefixes : List String) (name : String) : String :=
  (rm_prefixes ++ ["static"]).foldl
    (fun final_name p =>
      let candidate := removePrefixStr (removePrefixStr name p) "/"
      if candidate.length < final_name.length then candidate else final_name)
    name

/-- Embedding of `filter_tarinfo` (sources/challenge.py lines 397-414): zeroes uid/gid,
clears uname/gname, zeroes mtime, empties the pax headers and strips the
entry name.  It does **not** touch the permission `mode` bits, which are
carried over from the host file unchanged. -/
def filter_tarinfo (rm_prefixes : List String) (name : String) (meta : SrcMeta)
    (payload : List Nat) : TarEntry :=
  { name := strip_name rm_prefixes name, mode := meta.mode, uid := 0, gid := 0,
    uname := "", gname := "", mtime := 0, pax_headers := [], payload := payload }

/-- The entry sequence of the archive built by `load_static_files`
(sources/challenge.py lines 390-424): one filtered entry per resolved file,
in the order of `_get_all_static_files()` (already sorted). -/
def archive_entries (rm_prefixes : List String) (names : List String)
    (meta : String → SrcMeta) (contents : String → List Nat) : List TarEntry :=
  names.map fun n => filter_tarinfo rm_prefixes n (meta n) (contents n)

/-- Python `Path.name`: the final path component. -/
def basenameStr (s : String) : String :=
  ((s.splitOn "/").getLast?).getD s

/-- One upload unit: either the single in-memory tar archive or a raw file
payload.  (`load_static_files` then hashes each unit's payload with SHA-256;
equal payloads therefore yield equal content hashes.) -/
inductive FileUnit where
  | archive (entries : List TarEntry)
  | raw (payload : List Nat)
deriving DecidableEq, Repr

/-- Embedding of `Challenge.load_static_files` (sources/challenge.py lines 364-441) over
the resolved file list `names` (relative paths, as sorted by
`_get_all_static_files`) and the host filesystem's per-file metadata and
contents.  Archiving happens only for more than one file and when configured;
more than 25 files without archiving is refused with an `AssertionError`. -/
def load_static_files (static : StaticConfig) (challenge_id : String)
    (names : List String) (meta : String → SrcMeta) (contents : String → List Nat) :
    Except PyErr (List (String × FileUnit)) :=
  let make_archive := if names.length > 1 then static.make_archive else false
  if !make_archive && names.length > 25 then
    .error (.assertionError "cowardly refusing to upload over 25 individual files!")
  else if make_archive then
    .ok [(challenge_id ++ ".tar",
          .archive (archive_entries static.rm_prefixes names meta contents))]
  else
    .ok (names.map fun n => (basenameStr n, .raw (contents n)))

/-- Resolved file names for the C4 scenario (two files, so archiving with the
default config is in effect). -/
def c4_names : List String := ["static/a.txt", "static/b.txt"]

/-- File contents for the C4 scenario - identical on both hosts. -/
def c4_contents : String → List Nat :=
  fun n => if n = "static/a.txt" then [97] else [98]

/-- Host 1 metadata: files owned by uid/gid 1000 (`alice`), mode 0o644 (420),
some modification time. -/
def c4_meta_host1 : String → SrcMeta :=
  fun _ => { mode := 420, uid := 1000, gid := 1000, uname := "alice", gname := "alice",
             mtime := 1700000000 }

/-- Host 2 metadata: same file bytes but different ownership and mtime, and
`static/a.txt` carries mode 0o755 (493) instead of 0o644. -/
def c4_meta_host2 : String → SrcMeta :=
  fun n =>
    if n = "static/a.txt" then
      { mode := 493, uid := 0, gid := 0, uname := "root", gname := "root", mtime := 42 }
    else
      { mode := 420, uid := 0, gid := 0, uname := "root", gname := "root", mtime := 42 }

end Sources

/-! ## Pattern resolver (src/cctk/util/filewalker.py) -/

namespace FileWalker

/-- Filesystem paths relative to the walker's root directory, as lists of
path components (the root itself is `[]`; `pathlib` path equality is
componentwise). -/
abbrev FsPath := List String

/-- An abstract host filesystem, seen through the `pathlib` operations that
`FileWalker.walk_with_warnings` performs: `present p` is `p.exists()`,
`isDir p` is `p.is_dir()`, `glob pat` is `root.glob(pattern)` for an include
pattern, `children d` is `d.iterdir()` and `descendants d` is
`d.glob("**/*")`.  The three proof fields record facts that hold of every
real filesystem: glob matches, directory children and recursive descendants
all exist on disk.  An existing path that is not a directory is treated as a
regular file (`is_file`); special file types (sockets, device nodes) are
outside the model. -/
structure FS where
  present : FsPath → Bool
  isDir : FsPath → Bool
  glob : String → List FsPath
  children : FsPath → List FsPath
  descendants : FsPath → List FsPath
  glob_present : ∀ pat p, p ∈ glob pat → present p = true
  children_present : ∀ d p, p ∈ children d → present p = true
  descendants_present : ∀ d p, p ∈ descendants d → present p = true

/-- Embedding of `Path.is_file()` in the model: the path exists and is not a directory. -/
def FS.isFile (fs : FS) (p : FsPath) : Bool := fs.present p && !fs.isDir p

/-- Embedding of `FileWalker` warnings (filewalker.py lines 6-21), each carrying the
pattern type (`"include"` or `"exclude"`) and the pattern itself. -/
inductive FileWalkerWarning where
  | matchless (type : String) (pattern : String)
  | redundant (type : String) (pattern : String)
deriving DecidableEq, Repr

/-- Python `set.update` on duplicate-free lists: append the new members not
already present. -/
def sUnion (a b : List FsPath) : List FsPath :=
  a ++ b.filter (fun x => x ∉ a)

/-- Python `set.remove`/`set.discard`: drop the element. -/
def sErase (a : List FsPath) (x : FsPath) : List FsPath :=
  a.filter (fun y => y ≠ x)

/-- One iteration of the include-pattern loop (filewalker.py lines 75-86):
glob the pattern, record a matchless warning when nothing matched, otherwise
add the matches and record a redundant warning when the accumulated result
set did not grow. -/
def include_step (fs : FS) (acc : List FsPath × List FileWalkerWarning)
    (pattern : String) : List FsPath × List FileWalkerWarning :=
  if ((fs.glob pattern).dedup).length = 0 then
    (acc.1, acc.2 ++ [.matchless "include" pattern])
  else if acc.1.length = (sUnion acc.1 ((fs.glob pattern).dedup)).length then
    (sUnion acc.1 ((fs.glob pattern).dedup), acc.2 ++ [.redundant "include" pattern])
  else
    (sUnion acc.1 ((fs.glob pattern).dedup), acc.2)

/-- All proper prefixes of a path, shortest first: this is
`reversed(literal_path.parents)` relative to the walker root (the root
itself, `[]`, comes first). -/
def properPrefixesOf (p : FsPath) : List FsPath :=
  (List.range p.length).map fun n => p.take n

/-- One iteration of the exclude-pattern loop (filewalker.py lines 89-105).
Exclude patterns are treated as literal relative paths (`self.root / pattern`
is embedded as the component list).  Non-existent paths are skipped; each
ancestor directory found in the result set is replaced by its immediate
children, walking down the tree; finally the exact path is removed if
present. -/
def exclude_descend (fs : FS) (results : List FsPath) (pattern : FsPath) : List FsPath :=
  (properPrefixesOf pattern).foldl
    (fun res ancestor =>
      if ancestor ∈ res then sUnion (sErase res ancestor) (fs.children ancestor).dedup
      else res)
    results

/-- One iteration of the exclude-pattern loop, continued: after descending
the ancestors, the exact path is removed if present (filewalker.py lines
103-105). -/
def exclude_step (fs : FS) (results : List FsPath) (pattern : FsPath) : List FsPath :=
  if fs.present pattern = false then results
  else if pattern ∈ exclude_descend fs results pattern then
    sErase (exclude_descend fs results pattern) pattern
  else exclude_descend fs results pattern

/-- One iteration of the final expansion loop (filewalker.py lines 108-111):
a directory is replaced by all files recursively contained in it. -/
def expand_step (fs : FS) (acc : List FsPath) (p : FsPath) : List FsPath :=
  if fs.isDir p then
    sErase (sUnion acc ((fs.descendants p).filter (fun q => fs.isFile q)).dedup) p
  else acc

/-- The final expansion pass (filewalker.py lines 108-111): iterate over a
snapshot (`results.copy()`) of the result set, expanding every directory. -/
def expand_pass (fs : FS) (results : List FsPath) : List FsPath :=
  results.foldl (expand_step fs) results

/-- Embedding of `FileWalker.walk_with_warnings` (filewalker.py lines 55-118): the
root-existence sanity check, the include pass, the literal-exclude pass and
the final expansion pass. -/
def walk_with_warnings (fs : FS) (include_patterns : List String)
    (exclude_patterns : List FsPath) :
    Except PyErr (List FsPath × List FileWalkerWarning) :=
  if fs.present [] = false then
    .error (.fileNotFoundError "Root directory does not exist")
  else
    let incl := include_patterns.foldl (include_step fs) ([], [])
    let results := exclude_patterns.foldl (exclude_step fs) incl.1
    .ok (expand_pass fs results, incl.2)

end FileWalker

/-! ## Diff engine (src/cctk/commands/shared.py) -/

namespace Shared

/-- Embedding of `ChallengeChanges` (shared.py lines 26-40): a bit-flag set describing the
changes needed for one challenge.  Embedded as one Bool per flag; the empty
flag value `ChallengeChanges(0)` is the record with every field `false`. -/
structure ChallengeChanges where
  create_new : Bool := false
  name : Bool := false
  description : Bool := false
  category : Bool := false
  points : Bool := false
  tags : Bool := false
  hints : Bool := false
  flags : Bool := false
  files : Bool := false
deriving DecidableEq, Repr

/-- The flag value `ChallengeChanges.CREATE_NEW` alone. -/
def ChallengeChanges.CREATE_NEW : ChallengeChanges := { create_new := true }

/-- Python `!=` between a `str` and a `str | None` value (shared.py line 280
compares `tgt_chal.description : str` against `config.description :
str | None`): a string never equals `None`. -/
def pyStrNeOpt (a : String) (b : Option String) : Bool :=
  match b with
  | some s => a ≠ s
  | none => true

/-- Embedding of the per-challenge body of
`DeployTarget.compare_against_sources` (shared.py lines 266-311).  Arguments
mirror the per-id entries of `self.challenges`, `self.tags`, `self.hints`,
`self.flags`, `self.files` (all `… | None`) and `deploy_src.challenges[cid]`.
Returning `none` models line 310-311 (`del changes[cid]` for an empty
changeset); exceptions raised by the Python code surface as `.error`. -/
def compare_against_sources_one (tgt_chal : Option Ctfd.Challenge)
    (tgt_tags : Option Ctfd.ChallengeTags) (tgt_hints : Option Ctfd.ChallengeHints)
    (tgt_flags : Option Ctfd.ChallengeFlags) (tgt_files : Option Ctfd.ChallengeFiles)
    (src_chal : Sources.LocalChallenge) : Except PyErr (Option ChallengeChanges) :=
  match tgt_chal with
  | none =>
    -- lines 270-272: the entire challenge needs to be created; `continue`
    .ok (some ChallengeChanges.CREATE_NEW)
  | some t =>
    -- line 275: changes[cid] = ChallengeChanges(0)
    let changes : ChallengeChanges := {}
    -- lines 278-283: compare base challenge data (name, description, category)
    let changes := if t.name ≠ src_chal.config.name then { changes with name := true } else changes
    let changes := if pyStrNeOpt t.description src_chal.config.description then
      { changes with description := true } else changes
    let changes := if t.category ≠ src_chal.config.category then
      { changes with category := true } else changes
    -- lines 284-285: `tgt_chal.value != src_chal.config.points`
    t.value? >>= fun tval =>
    src_chal.config.points? >>= fun spts =>
    let changes := if tval ≠ spts then { changes with points := true } else changes
    -- lines 288-289: compare challenge tags
    optAttr "as_str_list" Ctfd.ChallengeTags.as_str_list tgt_tags >>= fun tagList =>
    let changes := if tagList ≠ src_chal.get_tag_list then { changes with tags := true } else changes
    -- lines 292-293: compare challenge hints
    optAttr "as_str_list" Ctfd.ChallengeHints.as_str_list tgt_hints >>= fun hintList =>
    let changes := if hintList ≠ src_chal.config.hints then { changes with hints := true } else changes
    -- lines 296-297: `self.flags[cid].as_str_list() != [src_chal.config.flag]`
    optAttr "as_str_list" Ctfd.ChallengeFlags.as_str_list tgt_flags >>= fun flagList =>
    src_chal.config.flag? >>= fun fl =>
    let changes := if flagList ≠ [fl] then { changes with flags := true } else changes
    -- lines 300-307: compare challenge files as sets of (filename, content hash)
    optAttr "as_str_set" Ctfd.ChallengeFiles.as_str_set tgt_files >>= fun fileEntries =>
    let existing_fileset := (fileEntries.map fun e => (e.filename, e.content_label)).toFinset
    let target_fileset := src_chal.static_files.toFinset
    let changes := if existing_fileset ≠ target_fileset then { changes with files := true } else changes
    -- lines 310-311: remove empty changesets
    if changes = ({} : ChallengeChanges) then .ok none else .ok (some changes)

/-- Concrete remote challenge for the C6 scenario (scalar fields match the
local config). -/
def c6_remote : Ctfd.Challenge :=
  { id := 268435457, name := "chal", category := "web", initial := 500, minimum := 100,
    decay := 10, description := "d" }

/-- Concrete local challenge for the C6 scenario: hints `["h1", "h2"]` and
files `[("a.txt", "ha"), ("b.txt", "hb")]`. -/
def c6_local : Sources.LocalChallenge :=
  { config := { id := "chal", name := "chal", category := "web", difficulty := .easy,
                description := some "d", tags := [], flags := ["F"], hints := ["h1", "h2"] },
    static_files := [("a.txt", "ha"), ("b.txt", "hb")] }

/-- Remote hints for the C6 scenario: same contents as the local hints but in
the opposite order. -/
def c6_remote_hints : Ctfd.ChallengeHints :=
  { id := 268435457, hints := [{ content := "h2", id := some 11 }, { content := "h1", id := some 12 }] }

/-- Remote files for the C6 scenario: the same `(filename, content hash)`
pairs as the local files but listed in the opposite order. -/
def c6_remote_files : Ctfd.ChallengeFiles :=
  { id := 268435457,
    files := [{ filename := "b.txt", content_label := "hb", id := some 2 },
              { filename := "a.txt", content_label := "ha", id := some 3 }] }

/-- Concrete local challenge for the C10 scenario: difficulty `easy`,
configured tags `["intro"]`. -/
def c10_local : Sources.LocalChallenge :=
  { config := { id := "pwn-02", name := "pwn-02", category := "pwn", difficulty := .easy,
                description := some "d", tags := ["intro"], flags := ["F"], hints := [] },
    static_files := [] }

/-- Concrete remote tag list for the C10 scenario: exactly the configured
tags, without the leading difficulty tag. -/
def c10_remote_tags : Ctfd.ChallengeTags :=
  { id := 268435458, tags := [{ value := "intro", id := some 1 }] }

end Shared

/-! ## Theorems -/

theorem xor_small_mod_two_pow (h b n : Nat) (hb : b < 2 ^ n) :
    (h ^^^ b) % 2 ^ n = (h % 2 ^ n) ^^^ b := by
  apply Nat.eq_of_testBit_eq
  intro i
  simp only [Nat.testBit_mod_two_pow, Nat.testBit_xor]
  by_cases hi : i < n
  · simp [hi]
  · have hbi : b.testBit i = false := by
      apply Nat.testBit_lt_two_pow
      calc b < 2 ^ n := hb
        _ ≤ 2 ^ i := Nat.pow_le_pow_right (by norm_num) (Nat.le_of_not_lt hi)
    simp [hi, hbi]

theorem fnv_fold_mod (l : List Nat) (hl : ∀ b ∈ l, b < 2 ^ 64) (h : Nat) :
    (l.foldl (fun h byte => (h ^^^ byte) * fnv_prime) h) % 2 ^ 64 =
      l.foldl (fun h byte => ((h ^^^ byte) * fnv_prime) % 2 ^ 64) (h % 2 ^ 64) := by
  induction l generalizing h with
  | nil => rfl
  | cons b rest ih =>
    simp only [List.foldl_cons]
    rw [ih (fun x hx => hl x (List.mem_cons_of_mem _ hx))]
    have step : ((h ^^^ b) * fnv_prime) % 2 ^ 64 = (((h % 2 ^ 64) ^^^ b) * fnv_prime) % 2 ^ 64 := by
      rw [← Nat.mod_mul_mod, xor_small_mod_two_pow h b 64 (hl b (List.mem_cons_self b rest))]
    rw [step]

/-- Reducing the unbounded FNV accumulator modulo `2 ^ 64` yields the true
64-bit FNV-1a hash, provided every input is a byte value. -/
theorem fnv_1a_64_mod_eq_spec (l : List Nat) (hl : ∀ b ∈ l, b < 2 ^ 64) :
    fnv_1a_64 l % 2 ^ 64 = fnv_1a_64_spec l := by
  unfold fnv_1a_64 fnv_1a_64_spec
  rw [fnv_fold_mod l hl fnv_offset_basis]
  norm_num [fnv_offset_basis]

/-- The xor-fold only inspects bits 0-55 of its argument, so it cannot tell an
unbounded accumulator from its low 64 bits. -/
theorem xor_fold_28_mod (h : Nat) : xor_fold_28 h = xor_fold_28 (h % 2 ^ 64) := by
  unfold xor_fold_28
  apply Nat.eq_of_testBit_eq
  intro i
  simp only [Nat.testBit_and, Nat.testBit_xor, Nat.testBit_shiftRight,
    Nat.testBit_mod_two_pow, Nat.testBit_two_pow_sub_one]
  by_cases hi : i < 28
  · simp [hi, show 28 + i < 64 by omega, show i < 64 by omega]
  · simp [hi]

theorem utf8Bytes_lt (s : String) : ∀ b ∈ utf8Bytes s, b < 2 ^ 64 := by
  intro b hb
  unfold utf8Bytes at hb
  obtain ⟨u, _, rfl⟩ := List.mem_map.mp hb
  calc u.toNat < 2 ^ 8 := u.toNat_lt
    _ < 2 ^ 64 := by norm_num

/-- C8: the string-key-to-numeric-id mapping is a deterministic pure function
of the id string: it equals the 64-bit FNV-1a hash of the id's UTF-8 bytes,
xor-folded to 28 bits, plus `2 ^ 28`, and for every input string the result
lies in the half-open range `[2 ^ 28, 2 * 2 ^ 28)`. -/
theorem c8_challenge_id_hash_is_folded_fnv (s : String) :
    challenge_id_hash_str s = xor_fold_28 (fnv_1a_64_spec (utf8Bytes s)) + 2 ^ 28 ∧
      2 ^ 28 ≤ challenge_id_hash_str s ∧ challenge_id_hash_str s < 2 * 2 ^ 28 := by
  have key : challenge_id_hash_str s = xor_fold_28 (fnv_1a_64_spec (utf8Bytes s)) + 2 ^ 28 := by
    unfold challenge_id_hash_str challenge_id_hash
    rw [← fnv_1a_64_mod_eq_spec _ (utf8Bytes_lt s), ← xor_fold_28_mod]
    rfl
  refine ⟨key, ?_, ?_⟩
  · rw [key]; omega
  · rw [key]
    have : xor_fold_28 (fnv_1a_64_spec (utf8Bytes s)) ≤ 2 ^ 28 - 1 := by
      unfold xor_fold_28
      exact Nat.and_le_right
    omega

namespace Ctfd

/-- C3 counterexample: the claim says `get_challenge` stores the fetched
result even when it represents "does not exist", so that a second call
returns absent from the cache with exactly one remote read in total.  On a
remote with no challenge at id 9, both calls return `None` but the request
log records **two** remote reads and the cache still holds nothing: the 404
early-return at api.py lines 77-79 skips the cache write at line 93. -/
theorem c3_counterexample_absent_result_not_cached :
    (two_gets empty_remote 9).1 = none ∧
      (two_gets empty_remote 9).2.1 = none ∧
      (two_gets empty_remote 9).2.2.remote_reads =
        [(ResKind.challenges, 9), (ResKind.challenges, 9)] ∧
      (two_gets empty_remote 9).2.2.cache.challenges 9 = none :=
  ⟨rfl, rfl, rfl, rfl⟩

/-- C3 amended: `get_challenge` is a read-through cache for *existing*
challenges only.  Both calls return exactly the remote value; the cache ends
up agreeing with the remote value; and the number of remote reads is one when
the challenge exists (the second call is served from the cache) but two when
it is absent (the absent signal is never stored, so every call re-reads). -/
theorem c3_get_challenge_caches_positive_results_only (r : Remote) (cid : Int) :
    (two_gets r cid).1 = r.challenges cid ∧
      (two_gets r cid).2.1 = r.challenges cid ∧
      (two_gets r cid).2.2.cache.challenges cid = r.challenges cid ∧
      (two_gets r cid).2.2.remote_reads.length =
        (if (r.challenges cid).isSome then 1 else 2) := by
  cases h : r.challenges cid with
  | none => simp [two_gets, CTFdAPI.get_challenge, h]
  | some c => simp [two_gets, CTFdAPI.get_challenge, h, upd]

/-- C2: the claim says every remote write removes the cache entry of its own
kind, so no later read can return the stale pre-write value.  `update_files`
violates this: after the write, the *files* cache still holds the pre-write
row list (so the post-write `get_files` answers the stale value from the
cache, issuing no remote read, while the remote now holds the new row), and
the *flags* cache entry - a different kind, untouched by this write - has
been dropped instead (api.py line 475 pops `self._cache.flags`). -/
theorem c2_update_files_invalidates_wrong_cache_kind :
    (c2_run.map fun r =>
        (r.1,
         r.2.cache.files 5,
         r.2.cache.flags 5,
         r.2.remote.files 5,
         (CTFdAPI.get_files r.2 5).1,
         (CTFdAPI.get_files r.2 5).2.remote_reads)) =
      .ok (true,
           some { id := 5, files := [c2_initial_file] },
           none,
           [{ filename := "new.txt", content_label := "hash-new", id := some 1000 }],
           { id := 5, files := [c2_initial_file] },
           [(ResKind.files, 5), (ResKind.flags, 5)]) := by
  rfl

end Ctfd

namespace Sources

/-- C5: the claim says a failure to load one challenge's config - including a
config with no flags - marks only that challenge as failed and never aborts
the whole batch.  The containment does work for TOML/schema failures (second
conjunct: a batch of one unparseable config yields zero loaded challenges and
one failed id).  But every *schema-valid* config - flagless or not - raises
`KeyError("flags")` inside `from_file` (sources/challenge.py line 131), which
`except ValidationError` does not catch, so the whole batch aborts: in the
first conjunct, the valid config of `chal-a` kills the run and `chal-b` is
never examined. -/
theorem c5_config_load_keyerror_aborts_batch :
    deploy_source_load [("chal-a", .clean c5_meta [] {} none), ("chal-b", .tomlError)] =
        .error (.keyError "flags") ∧
      deploy_source_load [("chal-b", .tomlError)] = .ok ([], ["chal-b"]) :=
  ⟨rfl, rfl⟩

/-- C4 counterexample: the claim says archiving the same file set (same
relative names, same bytes) on hosts whose per-file ownership, mtime and
permission bits differ produces byte-identical archives.  With the default
static config, the same two files archived under host-1 and host-2 metadata
yield different archives: `filter_tarinfo` zeroes ownership and mtime but
leaves the permission mode untouched, and the differing mode of
`static/a.txt` lands in the entry header. -/
theorem c4_counterexample_mode_leaks_into_archive :
    load_static_files {} "chal" c4_names c4_meta_host1 c4_contents ≠
      load_static_files {} "chal" c4_names c4_meta_host2 c4_contents := by
  decide

/-- C4 amended: packaging the same resolved file list (same names, same
contents) twice is byte-deterministic *provided the per-file permission bits
agree*; the remaining per-file metadata (uid, gid, uname, gname, mtime, pax
headers) is cleared by `filter_tarinfo` and cannot influence the archive. -/
theorem c4_archive_deterministic_up_to_mode (static : StaticConfig)
    (challenge_id : String) (names : List String) (m1 m2 : String → SrcMeta)
    (contents : String → List Nat) (hmode : ∀ n ∈ names, (m1 n).mode = (m2 n).mode) :
    load_static_files static challenge_id names m1 contents =
      load_static_files static challenge_id names m2 contents := by
  have harch : archive_entries static.rm_prefixes names m1 contents =
      archive_entries static.rm_prefixes names m2 contents := by
    unfold archive_entries
    apply List.map_congr_left
    intro n hn
    unfold filter_tarinfo
    rw [hmode n hn]
  unfold load_static_files
  rw [harch]

/-- C4 amended, witness: the two host-metadata functions of the
counterexample scenario agree on permission bits once host 2 is given mode
0o644 on both files, and then the archives coincide. -/
theorem c4_archive_deterministic_up_to_mode_witness :
    load_static_files {} "chal" c4_names c4_meta_host1 c4_contents =
      load_static_files {} "chal" c4_names (fun _ => { mode := 420, uname := "root" })
        c4_contents :=
  c4_archive_deterministic_up_to_mode {} "chal" c4_names c4_meta_host1
    (fun _ => { mode := 420, uname := "root" }) c4_contents (by decide)

end Sources

namespace FileWalker

theorem mem_sUnion {a b : List FsPath} {p : FsPath} :
    p ∈ sUnion a b ↔ p ∈ a ∨ p ∈ b := by
  simp only [sUnion, List.mem_append, List.mem_filter, decide_eq_true_eq]
  by_cases h : p ∈ a <;> simp [h]

theorem mem_sErase {a : List FsPath} {x p : FsPath} :
    p ∈ sErase a x ↔ p ∈ a ∧ p ≠ x := by
  simp [sErase]

theorem isFile_present {fs : FS} {p : FsPath} (h : fs.isFile p = true) :
    fs.present p = true := by
  unfold FS.isFile at h
  simp only [Bool.and_eq_true] at h
  exact h.1

theorem isFile_not_isDir {fs : FS} {p : FsPath} (h : fs.isDir p = true) :
    fs.isFile p = false := by
  unfold FS.isFile
  simp [h]

/-- Through the include pass, every accumulated path exists on disk (glob
only returns existing entries). -/
theorem include_fold_present (fs : FS) (pats : List String)
    (acc : List FsPath × List FileWalkerWarning)
    (hacc : ∀ q ∈ acc.1, fs.present q = true) :
    ∀ q ∈ (pats.foldl (include_step fs) acc).1, fs.present q = true := by
  induction pats generalizing acc with
  | nil => exact hacc
  | cons pat rest ih =>
    refine ih _ ?_
    intro q hq
    unfold include_step at hq
    split at hq
    · exact hacc q hq
    · split at hq <;>
      · rcases mem_sUnion.mp hq with h | h
        · exact hacc q h
        · exact fs.glob_present pat q (List.mem_dedup.mp h)

/-- Through the exclude pass, every accumulated path still exists on disk
(only children of existing directories are ever added). -/
theorem exclude_fold_present (fs : FS) (pats : List FsPath) (results : List FsPath)
    (hres : ∀ q ∈ results, fs.present q = true) :
    ∀ q ∈ pats.foldl (exclude_step fs) results, fs.present q = true := by
  induction pats generalizing results with
  | nil => exact hres
  | cons pat rest ih =>
    refine ih _ ?_
    intro q hq
    unfold exclude_step at hq
    split at hq
    · exact hres q hq
    · have inner : ∀ res : List FsPath, (∀ x ∈ res, fs.present x = true) →
          ∀ x ∈ exclude_descend fs res pat, fs.present x = true := by
        intro res hr
        unfold exclude_descend
        induction properPrefixesOf pat generalizing res with
        | nil => exact hr
        | cons anc rest2 ih2 =>
          refine ih2 _ ?_
          intro x hx
          dsimp only at hx
          split at hx
          · rcases mem_sUnion.mp hx with h | h
            · exact hr x (mem_sErase.mp h).1
            · exact fs.children_present anc x (List.mem_dedup.mp h)
          · exact hr x hx
      split at hq
      · exact inner _ hres q (mem_sErase.mp hq).1
      · exact inner _ hres q hq

/-- Through the expansion pass, every accumulated path still exists on disk
(only files under existing directories are ever added). -/
theorem expand_fold_present (fs : FS) (snapshot : List FsPath) (acc : List FsPath)
    (hacc : ∀ q ∈ acc, fs.present q = true) :
    ∀ q ∈ snapshot.foldl (expand_step fs) acc, fs.present q = true := by
  induction snapshot generalizing acc with
  | nil => exact hacc
  | cons p rest ih =>
    refine ih _ ?_
    intro q hq
    unfold expand_step at hq
    split at hq
    · rcases mem_sUnion.mp (mem_sErase.mp hq).1 with h | h
      · exact hacc q h
      · exact isFile_present (List.mem_filter.mp (List.mem_dedup.mp h)).2
    · exact hacc q hq

/-- Key invariant of the expansion fold: a directory in the final
accumulator must already have been in the starting accumulator and cannot
have been in the processed snapshot (every processed directory is removed,
and only files are ever added). -/
theorem expand_fold_dir_untouched (fs : FS) (snapshot : List FsPath)
    (acc : List FsPath) (q : FsPath) (hdir : fs.isDir q = true)
    (hq : q ∈ snapshot.foldl (expand_step fs) acc) :
    q ∈ acc ∧ q ∉ snapshot := by
  induction snapshot generalizing acc with
  | nil => exact ⟨hq, by simp⟩
  | cons p rest ih =>
    obtain ⟨hq', hrest⟩ := ih _ hq
    unfold expand_step at hq'
    split at hq'
    · obtain ⟨hmem, hne⟩ := mem_sErase.mp hq'
      rcases mem_sUnion.mp hmem with h | h
      · refine ⟨h, ?_⟩
        intro hcons
        rcases List.mem_cons.mp hcons with rfl | h' <;> [exact hne rfl; exact hrest h']
      · exact absurd (List.mem_filter.mp (List.mem_dedup.mp h)).2
          (by simp [isFile_not_isDir hdir])
    · next hndir =>
      refine ⟨hq', ?_⟩
      intro hcons
      rcases List.mem_cons.mp hcons with rfl | h'
      · exact hndir hdir
      · exact hrest h'

/-- After the expansion pass, no directory remains: the pass iterates over a
snapshot of the very set it started from, so every directory is processed
(and removed) exactly once, and nothing that is added is a directory. -/
theorem expand_pass_no_dir (fs : FS) (results : List FsPath) (q : FsPath)
    (hdir : fs.isDir q = true) : q ∉ expand_pass fs results := by
  intro hq
  obtain ⟨hmem, hnot⟩ := expand_fold_dir_untouched fs results results q hdir hq
  exact hnot hmem

/-- C9: for every filesystem and every pair of include/exclude pattern
lists, every path in the final result of `walk_with_warnings` is a file -
filtering the result down to its non-file entries always yields the empty
list (and when the root is missing, no result is produced at all on either
side). -/
theorem c9_walk_result_contains_only_files (fs : FS) (include_patterns : List String)
    (exclude_patterns : List FsPath) :
    (walk_with_warnings fs include_patterns exclude_patterns).map
        (fun r => r.1.filter (fun p => !(fs.isFile p))) =
      (walk_with_warnings fs include_patterns exclude_patterns).map (fun _ => ([] : List FsPath)) := by
  unfold walk_with_warnings
  split
  · rfl
  · simp only [Except.map]
    congr 1
    rw [List.filter_eq_nil_iff]
    intro p hp hfile
    have hpres : fs.present p = true := by
      refine expand_fold_present fs _ _ ?_ p hp
      refine exclude_fold_present fs _ _ ?_
      refine include_fold_present fs _ _ ?_
      intro q hq
      simp at hq
    cases hd : fs.isDir p with
    | false =>
      have hf : fs.isFile p = true := by
        unfold FS.isFile
        simp [hpres, hd]
      simp [hf] at hfile
    | true => exact expand_pass_no_dir fs _ p hd hp

end FileWalker

namespace Shared

/-- C1: the claim says the diff engine compares each scalar field
independently and, for the score field, flags POINTS iff the remote point
value differs from the local config's point value.  In the code, the score
comparison `tgt_chal.value != src_chal.config.points` (shared.py line 284)
reads attributes that neither `Challenge` (models.py: dynamic-scoring fields
`initial`/`minimum`/`decay`, no `value`) nor `ChallengeConfig`
(sources/challenge.py: no `points`) defines, so for every challenge whose
remote counterpart exists the comparison raises `AttributeError` instead of
producing a changeset. -/
theorem c1_scalar_compare_raises_attribute_error (t : Ctfd.Challenge)
    (tags : Option Ctfd.ChallengeTags) (hints : Option Ctfd.ChallengeHints)
    (flags : Option Ctfd.ChallengeFlags) (files : Option Ctfd.ChallengeFiles)
    (src : Sources.LocalChallenge) :
    compare_against_sources_one (some t) tags hints flags files src =
      .error (.attributeError "value") := rfl

/-- C7: whenever the remote base entity is absent (`self.challenges[cid] is
None`), `compare_against_sources` records exactly the singleton CREATE_NEW
changeset - every other flag is false - and performs no further comparison
(the loop body `continue`s before reading any other field). -/
theorem c7_absent_remote_yields_create_only
    (tags : Option Ctfd.ChallengeTags) (hints : Option Ctfd.ChallengeHints)
    (flags : Option Ctfd.ChallengeFlags) (files : Option Ctfd.ChallengeFiles)
    (src : Sources.LocalChallenge) :
    compare_against_sources_one none tags hints flags files src =
      .ok (some { create_new := true, name := false, description := false, category := false,
                  points := false, tags := false, hints := false, flags := false,
                  files := false }) := rfl

/-- C6: the claim says a local/remote pair whose hints are reordered without
content change yields a changeset containing HINTS, and a pair whose file
collections are set-equal yields one without FILES.  On this concrete pair -
remote hints `["h2", "h1"]` vs local `["h1", "h2"]` (same contents, swapped
positions) and file collections equal as `(filename, content hash)` sets -
the code never produces any changeset: the scalar comparison raises
`AttributeError` (shared.py line 284) before the hint or file comparison is
reached, so no HINTS flag is ever recorded. -/
theorem c6_reordered_hints_no_changeset :
    c6_remote_hints.as_str_list = ["h2", "h1"] ∧
      c6_local.config.hints = ["h1", "h2"] ∧
      (c6_remote_files.as_str_set.map fun e => (e.filename, e.content_label)).toFinset =
        c6_local.static_files.toFinset ∧
      compare_against_sources_one (some c6_remote)
          (some { id := 268435457, tags := [{ value := "Easy" }] })
          (some c6_remote_hints) (some { id := 268435457, flags := [{ content := "F" }] })
          (some c6_remote_files) c6_local =
        .error (.attributeError "value") := by
  refine ⟨rfl, rfl, by decide, rfl⟩

/-- C10: `get_tag_list` does prepend the title-cased difficulty tag to the
configured tags, so it never equals the configured tag list verbatim, and on
this scenario the remote tag list equals the configured tags alone - yet the
code never flags a TAGS difference: `compare_against_sources` raises
`AttributeError` at the scalar score comparison (shared.py line 284) before
the tag comparison at line 288 executes. -/
theorem c10_difficulty_tag_prepended_but_never_flagged :
    c10_local.get_tag_list = "Easy" :: c10_local.config.tags ∧
      c10_local.get_tag_list ≠ c10_local.config.tags ∧
      c10_remote_tags.as_str_list = c10_local.config.tags ∧
      compare_against_sources_one
          (some { id := 268435458, name := "pwn-02", category := "pwn", initial := 500,
                  minimum := 100, decay := 10, description := "d" })
          (some c10_remote_tags) (some { id := 268435458, hints := [] })
          (some { id := 268435458, flags := [{ content := "F" }] })
          (some { id := 268435458, files := [] }) c10_local =
        .error (.attributeError "value") := by
  refine ⟨rfl, by decide, rfl, rfl⟩

end Shared

end Cctk
